import Mathlib

/-!
Verification of the footprint aggregator (src/program.c).

The C program connects to a database, reads the attendee rows and the
activity rows of one event, sums a per-row footprint, and writes the total
back onto the event row.  We embed it shallowly:

* C `double` values become `ℚ` (exact arithmetic in place of IEEE doubles);
  the decimal literals 0.24, 0.18, 0.14 become the rationals 24/100, 18/100,
  14/100.
* The two `SELECT` calls become fallible lookups `Int → Option (List _)`
  in an explicit database state; `none` models `PQresultStatus ≠
  PGRES_TUPLES_OK` (the early-return branches of the C code).
* The `UPDATE events SET carbon_footprint = %f WHERE id = %d` statement
  stores the value denoted by the `%f` rendering of the total, i.e. the
  total rounded to six fractional digits (`format6` below), at the single
  key `event_id`; a failing update (`PGRES_COMMAND_OK` not returned) leaves
  the store unchanged.
* The procedure also returns the trace of database operations it attempted,
  so that claims about which reads/writes happen on failure paths are
  statable.
-/

/-- The `Attendee` struct of program.c: `int id; char travel_mode[10];
double distance;`. -/
structure Attendee where
  id : Int
  travel_mode : String
  distance : ℚ
deriving DecidableEq

/-- The `Activity` struct of program.c: `int id; char activity_type[10];`. -/
structure Activity where
  id : Int
  activity_type : String
deriving DecidableEq

/-- `calculate_attendee_footprint` of program.c: chained `strcmp` tests on
the travel mode, falling through to 0.0. -/
def calculate_attendee_footprint (a : Attendee) : ℚ :=
  if a.travel_mode = "car" then a.distance * (24 / 100)
  else if a.travel_mode = "plane" then a.distance * (18 / 100)
  else if a.travel_mode = "train" then a.distance * (14 / 100)
  else 0

/-- `calculate_activity_footprint` of program.c:
`strcmp(activity_type, "virtual") == 0 ? 10 : 50`. -/
def calculate_activity_footprint (a : Activity) : ℚ :=
  if a.activity_type = "virtual" then 10 else 50

/-- The first accumulation loop of `calculate_and_update_event_footprint`:
`for` over the attendee rows, `total_footprint += calculate_attendee_footprint`. -/
def attendee_loop (init : ℚ) (ats : List Attendee) : ℚ :=
  ats.foldl (fun t a => t + calculate_attendee_footprint a) init

/-- The second accumulation loop of `calculate_and_update_event_footprint`:
`for` over the activity rows, `total_footprint += calculate_activity_footprint`. -/
def activity_loop (init : ℚ) (acs : List Activity) : ℚ :=
  acs.foldl (fun t a => t + calculate_activity_footprint a) init

/-- The in-memory total the C code holds in `total_footprint` just before
the `UPDATE`: both loops run in sequence starting from 0.0. -/
def total_footprint (ats : List Attendee) (acs : List Activity) : ℚ :=
  activity_loop (attendee_loop 0 ats) acs

/-- The value denoted by the `snprintf "%f"` rendering of a number: exactly
six fractional digits, i.e. the value rounded to the nearest multiple of
10⁻⁶. -/
def format6 (q : ℚ) : ℚ :=
  ((round (q * 1000000) : ℤ) : ℚ) / 1000000

/-- The three database operations `calculate_and_update_event_footprint`
can attempt, in source order. -/
inductive DbOp
  | readAttendees
  | readActivities
  | updateEvent
deriving DecidableEq

/-- The observable database state: the attendee rows and activity rows
keyed by `event_id` (with `none` modelling a failing `SELECT`), the
`carbon_footprint` column of the events table keyed by event id, and a
flag telling whether the `UPDATE` statement succeeds. -/
structure DbState where
  attendeesTable : Int → Option (List Attendee)
  activitiesTable : Int → Option (List Activity)
  events : Int → ℚ
  updateOk : Bool

/-- `calculate_and_update_event_footprint` of program.c, returning the
resulting database state together with the trace of operations attempted:
read attendees (early return on failure), accumulate; read activities
(early return on failure), accumulate; `UPDATE events SET carbon_footprint
= %f WHERE id = %d` (failure merely logged). -/
def calculate_and_update_event_footprint (db : DbState) (event_id : Int) :
    DbState × List DbOp :=
  match db.attendeesTable event_id with
  | none => (db, [DbOp.readAttendees])
  | some ats =>
    let t1 := attendee_loop 0 ats
    match db.activitiesTable event_id with
    | none => (db, [DbOp.readAttendees, DbOp.readActivities])
    | some acs =>
      let total := activity_loop t1 acs
      if db.updateOk then
        ({ db with events := Function.update db.events event_id (format6 total) },
          [DbOp.readAttendees, DbOp.readActivities, DbOp.updateEvent])
      else
        (db, [DbOp.readAttendees, DbOp.readActivities, DbOp.updateEvent])

/-- `main` of program.c: if the connection fails, print a diagnostic and
return 1; otherwise run `calculate_and_update_event_footprint` on the
hardcoded event id 1 and return 0 unconditionally.  The boolean argument
models `PQstatus(conn) == CONNECTION_OK`. -/
def main_run (connOk : Bool) (db : DbState) : Nat × DbState :=
  if connOk then (0, (calculate_and_update_event_footprint db 1).1)
  else (1, db)

example : calculate_attendee_footprint ⟨1, "car", 100⟩ = 24 := by
  norm_num [calculate_attendee_footprint]
example : calculate_attendee_footprint ⟨1, "bike", 40⟩ = 0 := by
  simp [calculate_attendee_footprint]
example : calculate_activity_footprint ⟨1, "virtual"⟩ = 10 := by
  norm_num [calculate_activity_footprint]
example : total_footprint [⟨1, "car", 100⟩, ⟨2, "plane", 50⟩]
    [⟨1, "virtual"⟩, ⟨2, "workshop"⟩] = 93 := by
  simp only [total_footprint, attendee_loop, activity_loop, List.foldl,
    calculate_attendee_footprint, calculate_activity_footprint,
    String.reduceEq, reduceIte]
  norm_num
example : format6 (7 / 5000000) = 1 / 1000000 := by
  norm_num [format6, round_eq]

/-- Running the attendee accumulation loop adds the sum of the per-attendee
contributions to the accumulator. -/
theorem attendee_loop_eq (init : ℚ) (ats : List Attendee) :
    attendee_loop init ats = init + (ats.map calculate_attendee_footprint).sum := by
  induction ats generalizing init with
  | nil => simp [attendee_loop]
  | cons a t ih =>
    simp only [attendee_loop, List.foldl_cons, List.map_cons, List.sum_cons] at ih ⊢
    rw [ih, add_assoc]

/-- Running the activity accumulation loop adds the sum of the per-activity
contributions to the accumulator. -/
theorem activity_loop_eq (init : ℚ) (acs : List Activity) :
    activity_loop init acs = init + (acs.map calculate_activity_footprint).sum := by
  induction acs generalizing init with
  | nil => simp [activity_loop]
  | cons a t ih =>
    simp only [activity_loop, List.foldl_cons, List.map_cons, List.sum_cons] at ih ⊢
    rw [ih, add_assoc]

/-- The accumulated total is the sum of the attendee contributions plus the
sum of the activity contributions. -/
theorem total_footprint_eq (ats : List Attendee) (acs : List Activity) :
    total_footprint ats acs
      = (ats.map calculate_attendee_footprint).sum
        + (acs.map calculate_activity_footprint).sum := by
  simp [total_footprint, attendee_loop_eq, activity_loop_eq]

/-- C1: the per-attendee footprint is distance × 0.24 for travel mode
exactly "car", distance × 0.18 for exactly "plane", distance × 0.14 for
exactly "train", and exactly 0 for any other travel mode, with exact
case-sensitive string comparison. -/
theorem attendee_footprint_rule (a : Attendee) :
    (a.travel_mode = "car" → calculate_attendee_footprint a = a.distance * (24 / 100)) ∧
    (a.travel_mode = "plane" → calculate_attendee_footprint a = a.distance * (18 / 100)) ∧
    (a.travel_mode = "train" → calculate_attendee_footprint a = a.distance * (14 / 100)) ∧
    (a.travel_mode ≠ "car" → a.travel_mode ≠ "plane" → a.travel_mode ≠ "train" →
      calculate_attendee_footprint a = 0) := by
  refine ⟨fun h => ?_, fun h => ?_, fun h => ?_, fun h1 h2 h3 => ?_⟩ <;>
    simp [calculate_attendee_footprint, *]

/-- Concrete instances of the per-attendee rule, including a case-differing
mode "Car" and the empty mode, both falling to the 0 branch. -/
theorem attendee_footprint_rule_witness :
    calculate_attendee_footprint ⟨1, "car", 100⟩ = 24 ∧
    calculate_attendee_footprint ⟨2, "plane", 50⟩ = 9 ∧
    calculate_attendee_footprint ⟨3, "train", 10⟩ = 7 / 5 ∧
    calculate_attendee_footprint ⟨4, "Car", 40⟩ = 0 ∧
    calculate_attendee_footprint ⟨5, "", 40⟩ = 0 := by
  refine ⟨?_, ?_, ?_, ?_, ?_⟩
  · rw [(attendee_footprint_rule ⟨1, "car", 100⟩).1 rfl]; norm_num
  · rw [(attendee_footprint_rule ⟨2, "plane", 50⟩).2.1 rfl]; norm_num
  · rw [(attendee_footprint_rule ⟨3, "train", 10⟩).2.2.1 rfl]; norm_num
  · exact (attendee_footprint_rule ⟨4, "Car", 40⟩).2.2.2
      (by simp) (by simp) (by simp)
  · exact (attendee_footprint_rule ⟨5, "", 40⟩).2.2.2
      (by simp) (by simp) (by simp)

/-- C2: the per-activity footprint is 10 for activity type exactly
"virtual" and 50 for any other activity type, including the empty one. -/
theorem activity_footprint_rule (a : Activity) :
    (a.activity_type = "virtual" → calculate_activity_footprint a = 10) ∧
    (a.activity_type ≠ "virtual" → calculate_activity_footprint a = 50) := by
  refine ⟨fun h => ?_, fun h => ?_⟩ <;> simp [calculate_activity_footprint, *]

/-- Concrete instances of the per-activity rule, including the empty
activity type. -/
theorem activity_footprint_rule_witness :
    calculate_activity_footprint ⟨1, "virtual"⟩ = 10 ∧
    calculate_activity_footprint ⟨2, "workshop"⟩ = 50 ∧
    calculate_activity_footprint ⟨3, ""⟩ = 50 :=
  ⟨(activity_footprint_rule ⟨1, "virtual"⟩).1 rfl,
    (activity_footprint_rule ⟨2, "workshop"⟩).2 (by simp),
    (activity_footprint_rule ⟨3, ""⟩).2 (by simp)⟩

/-- C3: the accumulated total is the sum of all per-attendee contributions
plus all per-activity contributions, and it is invariant under any
permutation of the attendee rows and of the activity rows. -/
theorem total_footprint_order_invariant (ats ats' : List Attendee)
    (acs acs' : List Activity) (ha : ats.Perm ats') (hc : acs.Perm acs') :
    total_footprint ats acs
        = (ats.map calculate_attendee_footprint).sum
          + (acs.map calculate_activity_footprint).sum ∧
      total_footprint ats acs = total_footprint ats' acs' := by
  refine ⟨total_footprint_eq ats acs, ?_⟩
  rw [total_footprint_eq, total_footprint_eq,
    (ha.map calculate_attendee_footprint).sum_eq,
    (hc.map calculate_activity_footprint).sum_eq]

/-- A concrete permutation of the Scenario A rows leaves the total
unchanged. -/
theorem total_footprint_order_invariant_witness :
    total_footprint [⟨1, "car", 100⟩, ⟨2, "plane", 50⟩]
        [⟨1, "virtual"⟩, ⟨2, "workshop"⟩]
      = total_footprint [⟨2, "plane", 50⟩, ⟨1, "car", 100⟩]
        [⟨2, "workshop"⟩, ⟨1, "virtual"⟩] :=
  (total_footprint_order_invariant _ _ _ _
    (List.Perm.swap _ _ _) (List.Perm.swap _ _ _)).2

/-- When both reads succeed and the update succeeds, the run stores the
six-digit rendering of the accumulated total at the event id. -/
theorem run_events_eq (db : DbState) (e : Int) (ats : List Attendee)
    (acs : List Activity) (h1 : db.attendeesTable e = some ats)
    (h2 : db.activitiesTable e = some acs) (hu : db.updateOk = true) :
    (calculate_and_update_event_footprint db e).1.events e
      = format6 (total_footprint ats acs) := by
  simp [calculate_and_update_event_footprint, h1, h2, hu, total_footprint,
    Function.update_same]

/-- C4: if the attendee read fails the run returns with the database state
unchanged and attempts nothing after the attendee read; if the attendee
read succeeds and the activity read fails, the run returns with the state
unchanged and never attempts the event write. -/
theorem read_failure_leaves_event_unchanged (db : DbState) (e : Int) :
    (db.attendeesTable e = none →
      (calculate_and_update_event_footprint db e).1 = db ∧
      (calculate_and_update_event_footprint db e).2 = [DbOp.readAttendees]) ∧
    (∀ ats, db.attendeesTable e = some ats → db.activitiesTable e = none →
      (calculate_and_update_event_footprint db e).1 = db ∧
      (calculate_and_update_event_footprint db e).2
        = [DbOp.readAttendees, DbOp.readActivities]) := by
  constructor
  · intro h
    simp [calculate_and_update_event_footprint, h]
  · intro ats h1 h2
    simp [calculate_and_update_event_footprint, h1, h2]

/-- Both failure paths exercised on concrete database states: the state
comes back unchanged and the trace stops at the failed read. -/
theorem read_failure_leaves_event_unchanged_witness :
    ((calculate_and_update_event_footprint
        ⟨fun _ => none, fun _ => some [], fun _ => 7, true⟩ 1).1
      = ⟨fun _ => none, fun _ => some [], fun _ => 7, true⟩ ∧
     (calculate_and_update_event_footprint
        ⟨fun _ => none, fun _ => some [], fun _ => 7, true⟩ 1).2
      = [DbOp.readAttendees]) ∧
    ((calculate_and_update_event_footprint
        ⟨fun _ => some [], fun _ => none, fun _ => 7, true⟩ 1).1
      = ⟨fun _ => some [], fun _ => none, fun _ => 7, true⟩ ∧
     (calculate_and_update_event_footprint
        ⟨fun _ => some [], fun _ => none, fun _ => 7, true⟩ 1).2
      = [DbOp.readAttendees, DbOp.readActivities]) :=
  ⟨(read_failure_leaves_event_unchanged
      ⟨fun _ => none, fun _ => some [], fun _ => 7, true⟩ 1).1 rfl,
    (read_failure_leaves_event_unchanged
      ⟨fun _ => some [], fun _ => none, fun _ => 7, true⟩ 1).2 [] rfl rfl⟩

/-- C5: the process exit code is 1 exactly when the initial connection
fails and 0 otherwise, for every database state — in particular for states
in which the attendee read, the activity read or the event write fails. -/
theorem exit_code_connection_only (connOk : Bool) (db : DbState) :
    ((main_run connOk db).1 = 1 ↔ connOk = false) ∧
    ((main_run connOk db).1 = 0 ↔ connOk = true) := by
  cases connOk <;> simp [main_run]

/-- C6: Scenario A — attendees [(car, 100), (plane, 50)] and activities
[(virtual), (workshop)] accumulate to exactly 93. -/
theorem scenario_a_total :
    total_footprint [⟨1, "car", 100⟩, ⟨2, "plane", 50⟩]
      [⟨1, "virtual"⟩, ⟨2, "workshop"⟩] = 93 := by
  simp only [total_footprint, attendee_loop, activity_loop, List.foldl,
    calculate_attendee_footprint, calculate_activity_footprint,
    String.reduceEq, reduceIte]
  norm_num

/-- C7: whenever both reads succeed the event write is attempted
unconditionally; when it succeeds the stored value is the rendering of the
accumulated total regardless of the previous value, and with zero attendee
rows and zero activity rows the stored value is 0. -/
theorem successful_reads_write_unconditional (db : DbState) (e : Int)
    (ats : List Attendee) (acs : List Activity)
    (h1 : db.attendeesTable e = some ats) (h2 : db.activitiesTable e = some acs) :
    DbOp.updateEvent ∈ (calculate_and_update_event_footprint db e).2 ∧
    (db.updateOk = true →
      (calculate_and_update_event_footprint db e).1.events e
        = format6 (total_footprint ats acs)) ∧
    (db.updateOk = true → ats = [] → acs = [] →
      (calculate_and_update_event_footprint db e).1.events e = 0) := by
  refine ⟨?_, fun hu => run_events_eq db e ats acs h1 h2 hu, ?_⟩
  · cases hu : db.updateOk <;>
      simp [calculate_and_update_event_footprint, h1, h2, hu]
  · intro hu hats hacs
    subst hats
    subst hacs
    rw [run_events_eq db e [] [] h1 h2 hu]
    norm_num [total_footprint, attendee_loop, activity_loop, format6]

/-- A successful run on an event with no attendee rows and no activity
rows attempts the write and stores 0, overwriting the previous value 7. -/
theorem successful_reads_write_unconditional_witness :
    DbOp.updateEvent ∈ (calculate_and_update_event_footprint
      ⟨fun _ => some [], fun _ => some [], fun _ => 7, true⟩ 1).2 ∧
    (calculate_and_update_event_footprint
      ⟨fun _ => some [], fun _ => some [], fun _ => 7, true⟩ 1).1.events 1 = 0 :=
  ⟨(successful_reads_write_unconditional
      ⟨fun _ => some [], fun _ => some [], fun _ => 7, true⟩ 1 [] [] rfl rfl).1,
    (successful_reads_write_unconditional
      ⟨fun _ => some [], fun _ => some [], fun _ => 7, true⟩ 1 [] [] rfl rfl).2.2
      rfl rfl rfl⟩

/-- The per-attendee contributions only depend on the travel mode and
distance fields, never on the id field. -/
theorem map_attendee_footprint_eq (ats ats' : List Attendee)
    (h : ats.map (fun a => (a.travel_mode, a.distance))
       = ats'.map (fun a => (a.travel_mode, a.distance))) :
    ats.map calculate_attendee_footprint = ats'.map calculate_attendee_footprint := by
  induction ats generalizing ats' with
  | nil =>
    cases ats' with
    | nil => rfl
    | cons a2 t2 => simp at h
  | cons a t ih =>
    cases ats' with
    | nil => simp at h
    | cons a2 t2 =>
      simp only [List.map_cons, List.cons.injEq, Prod.mk.injEq] at h ⊢
      obtain ⟨⟨hm, hd⟩, ht⟩ := h
      exact ⟨by simp only [calculate_attendee_footprint, hm, hd], ih t2 ht⟩

/-- The per-activity contributions only depend on the activity type field,
never on the id field. -/
theorem map_activity_footprint_eq (acs acs' : List Activity)
    (h : acs.map Activity.activity_type = acs'.map Activity.activity_type) :
    acs.map calculate_activity_footprint = acs'.map calculate_activity_footprint := by
  induction acs generalizing acs' with
  | nil =>
    cases acs' with
    | nil => rfl
    | cons a2 t2 => simp at h
  | cons a t ih =>
    cases acs' with
    | nil => simp at h
    | cons a2 t2 =>
      simp only [List.map_cons, List.cons.injEq] at h ⊢
      obtain ⟨hm, ht⟩ := h
      exact ⟨by simp only [calculate_activity_footprint, hm], ih t2 ht⟩

/-- C8: the total — and the stored value after two successful runs — is a
deterministic function of the attendee rows' (travel_mode, distance)
fields and the activity rows' activity_type fields only; changing the id
fields, the previous event values, or anything else in the state never
changes it. -/
theorem total_depends_only_on_row_fields (db db' : DbState) (e e' : Int)
    (ats ats' : List Attendee) (acs acs' : List Activity)
    (h1 : db.attendeesTable e = some ats) (h1' : db'.attendeesTable e' = some ats')
    (h2 : db.activitiesTable e = some acs) (h2' : db'.activitiesTable e' = some acs')
    (hu : db.updateOk = true) (hu' : db'.updateOk = true)
    (ha : ats.map (fun a => (a.travel_mode, a.distance))
        = ats'.map (fun a => (a.travel_mode, a.distance)))
    (hc : acs.map Activity.activity_type = acs'.map Activity.activity_type) :
    total_footprint ats acs = total_footprint ats' acs' ∧
    (calculate_and_update_event_footprint db e).1.events e
      = (calculate_and_update_event_footprint db' e').1.events e' := by
  have htot : total_footprint ats acs = total_footprint ats' acs' := by
    rw [total_footprint_eq, total_footprint_eq,
      map_attendee_footprint_eq ats ats' ha, map_activity_footprint_eq acs acs' hc]
  refine ⟨htot, ?_⟩
  rw [run_events_eq db e ats acs h1 h2 hu,
    run_events_eq db' e' ats' acs' h1' h2' hu', htot]

/-- Two states carrying the same row data up to id fields — and different
previous event values — store the same total. -/
theorem total_depends_only_on_row_fields_witness :
    total_footprint [⟨1, "car", 100⟩] [⟨5, "virtual"⟩]
      = total_footprint [⟨9, "car", 100⟩] [⟨6, "virtual"⟩] ∧
    (calculate_and_update_event_footprint
      ⟨fun _ => some [⟨1, "car", 100⟩], fun _ => some [⟨5, "virtual"⟩],
        fun _ => 7, true⟩ 1).1.events 1
      = (calculate_and_update_event_footprint
      ⟨fun _ => some [⟨9, "car", 100⟩], fun _ => some [⟨6, "virtual"⟩],
        fun _ => 42, true⟩ 2).1.events 2 :=
  total_depends_only_on_row_fields
    ⟨fun _ => some [⟨1, "car", 100⟩], fun _ => some [⟨5, "virtual"⟩], fun _ => 7, true⟩
    ⟨fun _ => some [⟨9, "car", 100⟩], fun _ => some [⟨6, "virtual"⟩], fun _ => 42, true⟩
    1 2 [⟨1, "car", 100⟩] [⟨9, "car", 100⟩] [⟨5, "virtual"⟩] [⟨6, "virtual"⟩]
    rfl rfl rfl rfl rfl rfl rfl rfl

/-- C9: on every execution path the run leaves the attendee rows, the
activity rows and the update flag untouched, and modifies at most the
events entry at the given event id. -/
theorem frame_only_event_row (db : DbState) (e : Int) :
    (calculate_and_update_event_footprint db e).1.attendeesTable = db.attendeesTable ∧
    (calculate_and_update_event_footprint db e).1.activitiesTable = db.activitiesTable ∧
    (calculate_and_update_event_footprint db e).1.updateOk = db.updateOk ∧
    ∀ j : Int, j ≠ e → (calculate_and_update_event_footprint db e).1.events j
      = db.events j := by
  cases h1 : db.attendeesTable e with
  | none => simp [calculate_and_update_event_footprint, h1]
  | some ats =>
    cases h2 : db.activitiesTable e with
    | none => simp [calculate_and_update_event_footprint, h1, h2]
    | some acs =>
      cases hu : db.updateOk with
      | false =>
        simp [calculate_and_update_event_footprint, h1, h2, hu]
      | true =>
        simp only [calculate_and_update_event_footprint, h1, h2, hu, reduceIte]
        exact ⟨trivial, trivial, trivial, fun j hj => Function.update_noteq hj _ _⟩

/-- On a concrete successful run over event 1, the event row at id 2 keeps
its previous value 7. -/
theorem frame_only_event_row_witness :
    (calculate_and_update_event_footprint
      ⟨fun _ => some [⟨1, "car", 100⟩], fun _ => some [], fun _ => 7, true⟩ 1).1.events 2
      = 7 :=
  (frame_only_event_row
    ⟨fun _ => some [⟨1, "car", 100⟩], fun _ => some [], fun _ => 7, true⟩ 1).2.2.2
    2 (by decide)

/-- C10: on a successful run the stored value is the accumulated total
rounded to six fractional digits (the value denoted by the printf
rendering with six digits after the point), and this rounded value can
differ from the accumulated total itself. -/
theorem stored_value_six_digit_rounding (db : DbState) (e : Int)
    (ats : List Attendee) (acs : List Activity)
    (h1 : db.attendeesTable e = some ats) (h2 : db.activitiesTable e = some acs)
    (hu : db.updateOk = true) :
    (calculate_and_update_event_footprint db e).1.events e
        = ((round (total_footprint ats acs * 1000000) : ℤ) : ℚ) / 1000000 ∧
      format6 (total_footprint [⟨1, "train", 1 / 100000⟩] [])
        ≠ total_footprint [⟨1, "train", 1 / 100000⟩] [] := by
  constructor
  · exact run_events_eq db e ats acs h1 h2 hu
  · simp only [total_footprint, attendee_loop, activity_loop, List.foldl,
      calculate_attendee_footprint, String.reduceEq, reduceIte]
    norm_num [format6, round_eq]

/-- A concrete run whose total 0.0000014 is stored as 0.000001: the
six-digit rendering loses the seventh fractional digit. -/
theorem stored_value_six_digit_rounding_witness :
    (calculate_and_update_event_footprint
      ⟨fun _ => some [⟨1, "train", 1 / 100000⟩], fun _ => some [], fun _ => 0, true⟩
      1).1.events 1 = 1 / 1000000 := by
  have h := (stored_value_six_digit_rounding
    ⟨fun _ => some [⟨1, "train", 1 / 100000⟩], fun _ => some [], fun _ => 0, true⟩
    1 [⟨1, "train", 1 / 100000⟩] [] rfl rfl rfl).1
  rw [h]
  simp only [total_footprint, attendee_loop, activity_loop, List.foldl,
    calculate_attendee_footprint, String.reduceEq, reduceIte]
  norm_num [round_eq]
